import Mathlib

/-!
# Shallow embedding of `dhybridrpy/tracks.py`

This file embeds the two classes of `dhybridrpy/tracks.py` — `Track` and
`TrackCollection` — as Lean definitions, and proves the specification's
claims about them.

Modelling choices:
* An HDF5 file is a finite association list from top-level group names to
  groups; a group is an association list from dataset names to datasets
  (shape, dtype, flattened contents).  File contents are immutable during a
  session (the code is a read-only access layer), so every `h5py.File`
  open sees the same value `f : H5File`.
* Every `with h5py.File(...)` block of the Python code is recorded as one
  `IOEvent`, tagged with its purpose (listing keys, reading shape/dtype
  metadata, or reading dataset contents).  Operations return their result,
  the updated object state, and the list of I/O events they performed.
* Python exceptions are values of `PyError`; fallible operations return
  `Except PyError _` instead of raising.  Error messages are built by the
  same string concatenations as the Python f-strings.  For errors raised
  inside `h5py` itself (missing group/dataset at the storage layer) the
  exact library message is not modelled, only the exception class.
* `numpy` arrays are flattened `List Int` contents; `dask` deferred arrays
  are the `ArrayVal.lazyArr` constructor, which records the declared shape
  and dtype together with the data needed by the captured `loader` closure
  (file path, group name, dataset key).  Computing a deferred array is
  `computeArray`, which re-reads the file contents.
* Python `str.split('-')`, `int(...)` and `str.startswith('_')` are
  re-implemented structurally on character lists (`pySplit`, `pyInt`,
  `pyStartsWith`) so that concrete instances reduce in the kernel.
  `pyInt` reproduces CPython's `int()` on ASCII strings exactly:
  surrounding whitespace stripped, one optional sign, digits with single
  grouping underscores between them (PEP 515).  Only `int()`'s acceptance
  of non-ASCII Unicode digits and whitespace is not modelled; the one
  theorem whose truth depends on the exact failure boundary of `int()`
  carries an explicit `asciiOnly` hypothesis for this reason.
* `list.sort(key=...)` is modelled decorate–sort–undecorate (exactly how
  CPython implements keyed sorting): keys are computed in list order
  (`decorate`, raising at the first malformed element like `int()` does),
  then a stable insertion sort by key (`sortPairs`) reorders the pairs.
-/

instance {ε α : Type} [DecidableEq ε] [DecidableEq α] :
    DecidableEq (Except ε α) := fun
  | .ok a, .ok b =>
    match decEq a b with
    | isTrue h => isTrue (h ▸ rfl)
    | isFalse h => isFalse (fun hh => h (Except.ok.inj hh))
  | .ok _, .error _ => isFalse (fun hh => Except.noConfusion hh)
  | .error _, .ok _ => isFalse (fun hh => Except.noConfusion hh)
  | .error e, .error e' =>
    match decEq e e' with
    | isTrue h => isTrue (h ▸ rfl)
    | isFalse h => isFalse (fun hh => h (Except.error.inj hh))

/-- One dataset inside an HDF5 group: declared shape, element type name,
and flattened contents. -/
structure Dataset where
  shape : List Nat
  dtype : String
  data : List Int
deriving DecidableEq

/-- An HDF5 group: association list from dataset names to datasets. -/
abbrev H5Group := List (String × Dataset)

/-- An HDF5 file: association list from top-level group names to groups. -/
abbrev H5File := List (String × H5Group)

/-- `f[name]` on an open HDF5 file: the group stored under `name`. -/
def lookupGroup (f : H5File) (name : String) : Option H5Group :=
  (f.find? (fun p => p.1 == name)).map (·.2)

/-- `group[key]` inside a group: the dataset stored under `key`. -/
def lookupDS (g : H5Group) (key : String) : Option Dataset :=
  (g.find? (fun p => p.1 == key)).map (·.2)

/-- `list(group.keys())`: the dataset names of a group, in storage order. -/
def groupKeys (g : H5Group) : List String := g.map (·.1)

/-- `list(f.keys())`: the top-level group names of a file, in storage order. -/
def fileKeys (f : H5File) : List String := f.map (·.1)

/-- Python exception classes raised by the code under embedding. -/
inductive PyError where
  | attributeError (msg : String)
  | keyError (msg : String)
  | valueError (msg : String)
deriving DecidableEq

/-- One `with h5py.File(file_path, 'r')` open/close block, tagged with what
the block reads: the key list of a group, the shape/dtype metadata of one
dataset, or the full contents of one dataset. -/
inductive IOEvent where
  | openListKeys (group : String)
  | openReadMeta (group key : String)
  | openReadData (group key : String)
deriving DecidableEq

/-- Does this file open touch dataset `key` (metadata or contents)? -/
def IOEvent.touches : IOEvent → String → Bool
  | .openListKeys _, _ => false
  | .openReadMeta _ k, key => k == key
  | .openReadData _ k, key => k == key

/-- Number of file opens performed for a given dataset key. -/
def keyOpens (evs : List IOEvent) (key : String) : Nat :=
  (evs.filter (fun e => e.touches key)).length

/-- The value cached per dataset name: either a materialised `numpy` array
(eager mode) or a `dask` deferred array (lazy mode).  The lazy constructor
carries the declared shape and dtype passed to `da.from_delayed`, and what
the `loader` closure captures: `self.file_path`, `self._group_name` and the
dataset key. -/
inductive ArrayVal where
  | eager (data : List Int)
  | lazyArr (shape : List Nat) (dtype : String) (filePath group key : String)
deriving DecidableEq

/-- Computing an array: a materialised array already holds its contents; a
deferred array's `loader` reopens the file and reads `f[group][key][:]`.
(The single-session file value stands for the contents found at the
captured `file_path`.) -/
def computeArray (v : ArrayVal) (f : H5File) : Except PyError (List Int) :=
  match v with
  | .eager d => .ok d
  | .lazyArr _ _ _ group key =>
    match lookupGroup f group with
    | none => .error (.keyError "h5py: unable to open object")
    | some g =>
      match lookupDS g key with
      | none => .error (.keyError "h5py: unable to open object")
      | some ds => .ok ds.data

/-- `dict` / cache lookup (`key in cache` plus `cache[key]`). -/
def lookupCache (c : List (String × ArrayVal)) (key : String) : Option ArrayVal :=
  (c.find? (fun p => p.1 == key)).map (·.2)

/-- State of a `Track` object (`Track.__init__`). -/
structure Track where
  file_path : String
  track_id : String
  species : Int
  lazy : Bool
  group_name : String
  data_cache : List (String × ArrayVal)
  available_keys : Option (List String)
deriving DecidableEq

/-- `Track(file_path, group_name, track_id, species, lazy)`: a freshly
constructed track has an empty data cache and no cached key list. -/
def Track.init (file_path group_name track_id : String) (species : Int)
    (lazy : Bool) : Track :=
  { file_path := file_path, track_id := track_id, species := species,
    lazy := lazy, group_name := group_name, data_cache := [],
    available_keys := none }

/-- `Track._get_available_keys`: on a cache miss, open the file, list the
keys of `f[self._group_name]`, cache and return them.  If the group is
missing at the storage layer, `h5py` raises `KeyError` after the open and
the cache field stays unset. -/
def Track.getAvailableKeys (t : Track) (f : H5File) :
    Except PyError (List String) × Track × List IOEvent :=
  match t.available_keys with
  | some ks => (.ok ks, t, [])
  | none =>
    match lookupGroup f t.group_name with
    | none =>
      (.error (.keyError "h5py: unable to open object"), t,
        [.openListKeys t.group_name])
    | some g =>
      (.ok (groupKeys g), { t with available_keys := some (groupKeys g) },
        [.openListKeys t.group_name])

/-- `Track._load_dataset`: return the cached value if present; otherwise
check availability (raising `AttributeError` for unknown names), then load
either lazily (one open reading shape/dtype, caching an uncomputed deferred
array) or eagerly (one open reading the full contents, caching a
materialised array).  A `dict` assignment adds at most one binding per key,
so it is modelled by consing the new binding. -/
def Track.loadDataset (t : Track) (f : H5File) (key : String) :
    Except PyError ArrayVal × Track × List IOEvent :=
  match lookupCache t.data_cache key with
  | some v => (.ok v, t, [])
  | none =>
    match t.getAvailableKeys f with
    | (.error e, t1, ev1) => (.error e, t1, ev1)
    | (.ok ks, t1, ev1) =>
      if key ∈ ks then
        if t.lazy then
          match lookupGroup f t.group_name with
          | none =>
            (.error (.keyError "h5py: unable to open object"), t1,
              ev1 ++ [.openReadMeta t.group_name key])
          | some g =>
            match lookupDS g key with
            | none =>
              (.error (.keyError "h5py: unable to open object"), t1,
                ev1 ++ [.openReadMeta t.group_name key])
            | some ds =>
              let v : ArrayVal :=
                .lazyArr ds.shape ds.dtype t.file_path t.group_name key
              (.ok v, { t1 with data_cache := (key, v) :: t1.data_cache },
                ev1 ++ [.openReadMeta t.group_name key])
        else
          match lookupGroup f t.group_name with
          | none =>
            (.error (.keyError "h5py: unable to open object"), t1,
              ev1 ++ [.openReadData t.group_name key])
          | some g =>
            match lookupDS g key with
            | none =>
              (.error (.keyError "h5py: unable to open object"), t1,
                ev1 ++ [.openReadData t.group_name key])
            | some ds =>
              let v : ArrayVal := .eager ds.data
              (.ok v, { t1 with data_cache := (key, v) :: t1.data_cache },
                ev1 ++ [.openReadData t.group_name key])
      else
        (.error (.attributeError
            ("Dataset '" ++ key ++ "' not available for track "
              ++ t.track_id ++ ". ")), t1, ev1)

/-- `name.startswith('_')`, evaluated structurally on the characters. -/
def pyStartsWith (s : String) (c : Char) : Bool :=
  match s.data with
  | [] => false
  | c0 :: _ => c0 == c

/-- `Track.__getattr__` (invoked by Python only for names that normal
attribute lookup does not resolve): names starting with `_` raise
`AttributeError` at once; any other name is routed to `_load_dataset`,
whose `AttributeError` (and only that class) is caught and replaced by the
generic `AttributeError` message naming the class and the attribute. -/
def Track.getattr (t : Track) (f : H5File) (name : String) :
    Except PyError ArrayVal × Track × List IOEvent :=
  if pyStartsWith name '_' then
    (.error (.attributeError
        ("'Track' object has no attribute '" ++ name ++ "'")), t, [])
  else
    match t.loadDataset f name with
    | (.error (.attributeError _), t', ev) =>
      (.error (.attributeError
          ("'Track' object has no attribute '" ++ name ++ "'")), t', ev)
    | r => r

/-- Run `load_dataset` on the same key `n` times, threading the track state
and concatenating the I/O events (the returned values are dropped). -/
def repeatLoad (t : Track) (f : H5File) (key : String) :
    Nat → Track × List IOEvent
  | 0 => (t, [])
  | n + 1 =>
    let r := t.loadDataset f key
    let rest := repeatLoad r.2.1 f key n
    (rest.1, r.2.2 ++ rest.2)

/-- `str.split(sep)` for a one-character separator, on character lists:
`"".split('-') == ['']`, `"a--b".split('-') == ['a','','b']`. -/
def splitChars (sep : Char) : List Char → List (List Char)
  | [] => [[]]
  | c :: cs =>
    match splitChars sep cs with
    | [] => [[c]]
    | h :: t => if c == sep then [] :: h :: t else (c :: h) :: t

/-- `s.split(sep)` as strings. -/
def pySplit (sep : Char) (s : String) : List String :=
  (splitChars sep s.data).map (fun cs => String.mk cs)

/-- The ASCII whitespace characters CPython's `int()` strips from both
ends of its argument (C-locale `Py_ISSPACE`): the controls 0x09–0x0D
(tab, newline, vertical tab, form feed, carriage return) and the space
0x20.  Note this is narrower than `str.isspace()`, which also counts
0x1C–0x1F — those make `int()` raise. -/
def pySpace (c : Char) : Bool :=
  (9 ≤ c.toNat && c.toNat ≤ 13) || c.toNat == 32

/-- Tail of `int()`'s digit grammar after its first digit: further digits,
with a single grouping underscore allowed only between two digits
(PEP 515) — `(_? digit)*`. -/
def pyDigitsTail : List Char → Bool
  | [] => true
  | c :: cs =>
    if c == '_' then
      match cs with
      | [] => false
      | d :: ds => d.isDigit && pyDigitsTail ds
    else
      c.isDigit && pyDigitsTail cs

/-- `int()`'s digit part: at least one ASCII digit, underscores only
between digits — `digit (_? digit)*`. -/
def pyDigitsOk : List Char → Bool
  | [] => false
  | d :: ds => d.isDigit && pyDigitsTail ds

/-- Base-10 value of a digit part, skipping the grouping underscores. -/
def digitsToNat (l : List Char) : Nat :=
  (l.filter (fun c => c != '_')).foldl (fun n c => 10 * n + (c.toNat - 48)) 0

/-- `int(s)` for strings of ASCII characters, exactly as CPython parses
them: surrounding whitespace is stripped, then an optional single `+` or
`-` sign, then one or more digits with single underscores allowed between
digits (so `int(" +1_0 ") == 10`); anything else raises `ValueError`
(`none` here).  Non-ASCII input — the Unicode decimal digits and the
non-ASCII whitespace that `int()` also accepts — is outside the model and
is rejected; theorems whose truth depends on `int()`'s exact failure
boundary therefore restrict group names to ASCII via `asciiOnly`. -/
def pyInt (s : String) : Option Int :=
  match ((s.data.dropWhile pySpace).reverse.dropWhile pySpace).reverse with
  | [] => none
  | c :: cs =>
    if c == '+' then
      if pyDigitsOk cs then some (digitsToNat cs : Int) else none
    else if c == '-' then
      if pyDigitsOk cs then some (-(digitsToNat cs : Int)) else none
    else
      if pyDigitsOk (c :: cs) then some (digitsToNat (c :: cs) : Int)
      else none

/-- Is every character of `s` ASCII?  `pyInt` models `int()` exactly on
this fragment. -/
def asciiOnly (s : String) : Bool := s.data.all (fun c => c.toNat < 128)

/-- `tuple(map(int, parts))`, failing at the first non-integer part. -/
def mapIntList : List String → Option (List Int)
  | [] => some []
  | p :: ps =>
    match pyInt p with
    | none => none
    | some n => (mapIntList ps).map (fun ns => n :: ns)

/-- The sort key of one group name: `tuple(map(int, x.split('-')))`. -/
def trackKey (s : String) : Option (List Int) :=
  mapIntList (pySplit '-' s)

/-- Python `<=` on integer tuples (lexicographic; a proper prefix is
smaller). -/
def tupLe : List Int → List Int → Bool
  | [], _ => true
  | _ :: _, [] => false
  | a :: as, b :: bs =>
    if a < b then true else if b < a then false else tupLe as bs

/-- Key computation pass of `ids.sort(key=...)`: decorate each element with
its key, in list order, propagating the first `ValueError`. -/
def decorate : List String → Option (List (List Int × String))
  | [] => some []
  | s :: ss =>
    match trackKey s with
    | none => none
    | some k => (decorate ss).map (fun ps => (k, s) :: ps)

/-- Stable insertion by key into an already key-sorted list: the new pair
goes before the first strictly larger key, after equal ones. -/
def insertPair (p : List Int × String) :
    List (List Int × String) → List (List Int × String)
  | [] => [p]
  | q :: qs => if tupLe p.1 q.1 then p :: q :: qs else q :: insertPair p qs

/-- Stable sort of decorated pairs by key (observably equal to CPython's
stable `list.sort`). -/
def sortPairs : List (List Int × String) → List (List Int × String)
  | [] => []
  | p :: ps => insertPair p (sortPairs ps)

/-- `ids.sort(key=lambda x: tuple(map(int, x.split('-'))))`: `none` when
some key computation raises `ValueError`, otherwise the stably key-sorted
names. -/
def sortTrackIds (names : List String) : Option (List String) :=
  (decorate names).map (fun ps => (sortPairs ps).map Prod.snd)

/-- State of a `TrackCollection` object (`TrackCollection.__init__`). -/
structure TrackCollection where
  file_path : String
  species : Int
  lazy : Bool
  tracks : List (String × Track)
  track_ids_cache : Option (List String)
deriving DecidableEq

/-- `TrackCollection(file_path, species, lazy)`: fresh collection with no
cached tracks and no cached ID list. -/
def TrackCollection.init (file_path : String) (species : Int) (lazy : Bool) :
    TrackCollection :=
  { file_path := file_path, species := species, lazy := lazy,
    tracks := [], track_ids_cache := none }

/-- The `track_ids` property: on a cache miss, open the file, list the
top-level group names, sort them by the numeric (rank, tag) key, cache and
return.  A malformed component makes `int()` raise `ValueError`, which
propagates and leaves the cache unset. -/
def TrackCollection.trackIds (c : TrackCollection) (f : H5File) :
    Except PyError (List String) × TrackCollection :=
  match c.track_ids_cache with
  | some ids => (.ok ids, c)
  | none =>
    match sortTrackIds (fileKeys f) with
    | none => (.error (.valueError "invalid literal for int() with base 10"), c)
    | some ids => (.ok ids, { c with track_ids_cache := some ids })

/-- Cache lookup in `self._tracks` (`track_id in self._tracks`). -/
def lookupTrack (ts : List (String × Track)) (tid : String) : Option Track :=
  (ts.find? (fun p => p.1 == tid)).map (·.2)

/-- `TrackCollection.__getitem__`: return the cached `Track` if present;
otherwise consult `track_ids` (raising `KeyError` for unknown IDs, naming
species and ID), construct a `Track` with `group_name == track_id`
inheriting the collection's laziness, cache and return it. -/
def TrackCollection.getItem (c : TrackCollection) (f : H5File) (tid : String) :
    Except PyError Track × TrackCollection :=
  match lookupTrack c.tracks tid with
  | some tr => (.ok tr, c)
  | none =>
    match c.trackIds f with
    | (.error e, c1) => (.error e, c1)
    | (.ok ids, c1) =>
      if tid ∈ ids then
        let tr := Track.init c.file_path tid tid c.species c.lazy
        (.ok tr, { c1 with tracks := (tid, tr) :: c1.tracks })
      else
        (.error (.keyError
            ("Track ID '" ++ tid ++ "' not found for species "
              ++ toString c.species ++ ".")), c1)

/-- Does `sub` occur at the head of `l`? (helper for substring occurrence) -/
def leadsWith : List Char → List Char → Bool
  | [], _ => true
  | _ :: _, [] => false
  | a :: as, b :: bs => a == b && leadsWith as bs

/-- Does `sub` occur contiguously anywhere inside `l`?  Used to state that
an error message does or does not contain a given piece of text. -/
def occursIn (sub : List Char) : List Char → Bool
  | [] => sub.isEmpty
  | c :: t => leadsWith sub (c :: t) || occursIn sub t

/-- Example file: one track group `0-1` with datasets `x1` and `ene`. -/
def exFile : H5File :=
  [("0-1", [("x1", ⟨[2], "float64", [10, 20]⟩),
            ("ene", ⟨[2], "float64", [3, 4]⟩)])]

/-- Example eager-mode track over `exFile`, freshly constructed. -/
def exEager : Track := Track.init "Tracks-p1.h5" "0-1" "0-1" 1 false

/-- `exEager` after its first successful `load_dataset('x1')`. -/
def exEagerLoaded : Track :=
  { exEager with data_cache := [("x1", .eager [10, 20])],
                 available_keys := some ["x1", "ene"] }

/-- Example lazy-mode track over `exFile`, freshly constructed. -/
def exLazy : Track := Track.init "Tracks-p1.h5" "0-1" "0-1" 1 true

/-- Example file whose only track group is `7-9`. -/
def exFile79 : H5File := [("7-9", [("x1", ⟨[1], "float64", [5]⟩)])]

/-- Example eager-mode track with ID `7-9` over `exFile79`. -/
def exTrack79 : Track := Track.init "Tracks-p1.h5" "7-9" "7-9" 2 false

/-- Example file for the sorting example: groups `1-2`, `0-10`, `0-1` in
storage order. -/
def exSortFile : H5File := [("1-2", []), ("0-10", []), ("0-1", [])]

/-- Example file containing the groups `10-1` and `2-5`. -/
def exSortFile2 : H5File := [("10-1", []), ("2-5", [])]

/-- Example file with a group name whose first component is not an
integer. -/
def exBadFile : H5File := [("0-1", []), ("a-1", [])]

/-- Example file with a three-component group name. -/
def exThreeFile : H5File := [("1-2-3", [])]

/-- Example eager-mode collection over `exFile`. -/
def exColl : TrackCollection := TrackCollection.init "Tracks-p1.h5" 1 false

/-- `exColl` after its first successful lookup of track `0-1`. -/
def exColl1 : TrackCollection :=
  { exColl with
      tracks := [("0-1", Track.init "Tracks-p1.h5" "0-1" "0-1" 1 false)],
      track_ids_cache := some ["0-1"] }

/- ------------------------------------------------------------------ -/
/- Helper lemmas                                                       -/
/- ------------------------------------------------------------------ -/

theorem lookupCache_cons_self (k : String) (v : ArrayVal)
    (c : List (String × ArrayVal)) :
    lookupCache ((k, v) :: c) k = some v := by
  simp [lookupCache, List.find?_cons]

theorem loadDataset_of_cached {t : Track} {f : H5File} {k : String}
    {v : ArrayVal} (h : lookupCache t.data_cache k = some v) :
    t.loadDataset f k = (.ok v, t, []) := by
  unfold Track.loadDataset
  rw [h]

theorem getAvailableKeys_error_state {t t1 : Track} {f : H5File} {e : PyError}
    {ev1 : List IOEvent} (h : t.getAvailableKeys f = (.error e, t1, ev1)) :
    t1 = t := by
  unfold Track.getAvailableKeys at h
  split at h
  · cases h
  · split at h
    · cases h; rfl
    · cases h

theorem getAvailableKeys_ok_cache {t t1 : Track} {f : H5File} {ks : List String}
    {ev1 : List IOEvent} (h : t.getAvailableKeys f = (.ok ks, t1, ev1)) :
    t1.data_cache = t.data_cache := by
  unfold Track.getAvailableKeys at h
  split at h
  · cases h; rfl
  · split at h
    · cases h
    · cases h; rfl

theorem loadDataset_ok_cached {t t' : Track} {f : H5File} {k : String}
    {v : ArrayVal} {ev : List IOEvent}
    (h : t.loadDataset f k = (.ok v, t', ev)) :
    lookupCache t'.data_cache k = some v := by
  unfold Track.loadDataset at h
  split at h
  · next v0 hc => cases h; exact hc
  · next hc =>
    split at h
    · cases h
    · split at h
      · split at h
        · split at h
          · cases h
          · split at h
            · cases h
            · cases h; exact lookupCache_cons_self ..
        · split at h
          · cases h
          · split at h
            · cases h
            · cases h; exact lookupCache_cons_self ..
      · cases h

theorem loadDataset_error_cache {t t' : Track} {f : H5File} {k : String}
    {e : PyError} {ev : List IOEvent}
    (h : t.loadDataset f k = (.error e, t', ev)) :
    t'.data_cache = t.data_cache := by
  unfold Track.loadDataset at h
  split at h
  · cases h
  · split at h
    · next heq =>
      cases h
      rw [getAvailableKeys_error_state heq]
    · next heq =>
      have ht1 := getAvailableKeys_ok_cache heq
      split at h
      · split at h
        · split at h
          · cases h; exact ht1
          · split at h
            · cases h; exact ht1
            · cases h
        · split at h
          · cases h; exact ht1
          · split at h
            · cases h; exact ht1
            · cases h
      · cases h; exact ht1

theorem keyOpens_nil (k : String) : keyOpens [] k = 0 := rfl

theorem keyOpens_append (a b : List IOEvent) (k : String) :
    keyOpens (a ++ b) k = keyOpens a k + keyOpens b k := by
  simp [keyOpens, List.filter_append]

theorem keyOpens_singleton_le (e : IOEvent) (k : String) : keyOpens [e] k ≤ 1 := by
  unfold keyOpens
  rcases h : e.touches k <;> simp [List.filter, h]

theorem getAvailableKeys_keyOpens {t t1 : Track} {f : H5File}
    {r : Except PyError (List String)} {ev1 : List IOEvent} (k : String)
    (h : t.getAvailableKeys f = (r, t1, ev1)) : keyOpens ev1 k = 0 := by
  unfold Track.getAvailableKeys at h
  split at h
  · cases h; rfl
  · split at h
    · cases h; simp [keyOpens, IOEvent.touches]
    · cases h; simp [keyOpens, IOEvent.touches]

theorem loadDataset_keyOpens {t t' : Track} {f : H5File} {k : String}
    {r : Except PyError ArrayVal} {ev : List IOEvent}
    (h : t.loadDataset f k = (r, t', ev)) : keyOpens ev k ≤ 1 := by
  unfold Track.loadDataset at h
  split at h
  · cases h; simp [keyOpens]
  · split at h
    · next heq => cases h; simp [getAvailableKeys_keyOpens k heq]
    · next heq =>
      have h0 := getAvailableKeys_keyOpens (t := t) k heq
      split at h
      · split at h
        · split at h
          · cases h; rw [keyOpens_append, h0]
            simpa using keyOpens_singleton_le _ _
          · split at h
            · cases h; rw [keyOpens_append, h0]
              simpa using keyOpens_singleton_le _ _
            · cases h; rw [keyOpens_append, h0]
              simpa using keyOpens_singleton_le _ _
        · split at h
          · cases h; rw [keyOpens_append, h0]
            simpa using keyOpens_singleton_le _ _
          · split at h
            · cases h; rw [keyOpens_append, h0]
              simpa using keyOpens_singleton_le _ _
            · cases h; rw [keyOpens_append, h0]
              simpa using keyOpens_singleton_le _ _
      · cases h; simp [h0]

theorem repeatLoad_cached {t : Track} {f : H5File} {k : String} {v : ArrayVal}
    (h : lookupCache t.data_cache k = some v) (n : Nat) :
    repeatLoad t f k n = (t, []) := by
  induction n with
  | zero => rfl
  | succ m ih => simp [repeatLoad, loadDataset_of_cached h, ih]

/- ------------------------------------------------------------------ -/
/- Claim theorems                                                      -/
/- ------------------------------------------------------------------ -/

/-- C1: after a successful `load_dataset(k)`, a second call returns the very
cached object with no I/O at all; one call opens the file at most once for
key `k`, and any number of repeated calls after the first success still
total at most one file open for that key. -/
theorem loadDataset_cache_idempotent (t : Track) (f : H5File) (k : String)
    (v : ArrayVal) (t' : Track) (ev : List IOEvent)
    (h : t.loadDataset f k = (.ok v, t', ev)) :
    t'.loadDataset f k = (.ok v, t', []) ∧
    keyOpens ev k ≤ 1 ∧
    ∀ n, keyOpens (repeatLoad t f k n).2 k ≤ 1 := by
  have hc := loadDataset_ok_cached h
  refine ⟨loadDataset_of_cached hc, loadDataset_keyOpens h, ?_⟩
  intro n
  cases n with
  | zero => simp [repeatLoad, keyOpens_nil]
  | succ m =>
    have hr : repeatLoad t f k (m + 1) =
        ((repeatLoad t' f k m).1, ev ++ (repeatLoad t' f k m).2) := by
      simp [repeatLoad, h]
    rw [hr, repeatLoad_cached hc m]
    simpa [keyOpens_append] using loadDataset_keyOpens h

theorem loadDataset_cache_idempotent_witness :
    exEagerLoaded.loadDataset exFile "x1" =
      (.ok (.eager [10, 20]), exEagerLoaded, []) ∧
    keyOpens [.openListKeys "0-1", .openReadData "0-1" "x1"] "x1" ≤ 1 ∧
    keyOpens (repeatLoad exEager exFile "x1" 3).2 "x1" ≤ 1 := by
  have h := loadDataset_cache_idempotent exEager exFile "x1" (.eager [10, 20])
    exEagerLoaded [.openListKeys "0-1", .openReadData "0-1" "x1"] (by decide)
  exact ⟨h.1, h.2.1, h.2.2 3⟩

/-- C9: a failed `load_dataset(k)` — whether the key is unknown or the
storage layer raises — leaves the data cache exactly as it was, so no
partial or sentinel value is ever stored under `k`. -/
theorem loadDataset_failure_preserves_cache (t : Track) (f : H5File)
    (k : String) (e : PyError) (t' : Track) (ev : List IOEvent)
    (h : t.loadDataset f k = (.error e, t', ev)) :
    t'.data_cache = t.data_cache ∧
    lookupCache t'.data_cache k = lookupCache t.data_cache k := by
  have hd := loadDataset_error_cache h
  exact ⟨hd, by rw [hd]⟩

theorem loadDataset_failure_preserves_cache_witness :
    ({ exEager with available_keys := some ["x1", "ene"] }).data_cache
        = exEager.data_cache ∧
    lookupCache ({ exEager with
        available_keys := some ["x1", "ene"] }).data_cache "zz"
      = lookupCache exEager.data_cache "zz" :=
  loadDataset_failure_preserves_cache exEager exFile "zz"
    (.attributeError "Dataset 'zz' not available for track 0-1. ")
    { exEager with available_keys := some ["x1", "ene"] }
    [.openListKeys "0-1"] (by decide)

/-- C10: attribute access for an underscore-prefixed name that normal
lookup did not resolve raises `AttributeError` immediately: the state is
untouched and no file open happens, so the dataset-lookup fallback is never
entered. -/
theorem getattr_underscore_immediate (t : Track) (f : H5File) (name : String)
    (h : pyStartsWith name '_' = true) :
    t.getattr f name =
      (.error (.attributeError
          ("'Track' object has no attribute '" ++ name ++ "'")), t, []) := by
  unfold Track.getattr
  simp [h]

theorem getattr_underscore_immediate_witness :
    exEager.getattr exFile "_hidden" =
      (.error (.attributeError "'Track' object has no attribute '_hidden'"),
        exEager, []) := by
  have h := getattr_underscore_immediate exEager exFile "_hidden" (by decide)
  simpa using h

theorem mem_groupKeys_of_lookupDS {g : H5Group} {k : String} {ds : Dataset}
    (h : lookupDS g k = some ds) : k ∈ groupKeys g := by
  unfold lookupDS at h
  rcases hf : g.find? (fun p => p.1 == k) with _ | p
  · rw [hf] at h; cases h
  · have hp := List.find?_some hf
    have hm := List.mem_of_find?_eq_some hf
    have hk : p.1 = k := by simpa using hp
    exact hk ▸ List.mem_map_of_mem _ hm

theorem loadDataset_missing_key {t t1 : Track} {f : H5File} {n : String}
    {ks : List String} {ev1 : List IOEvent}
    (hc : lookupCache t.data_cache n = none)
    (hks : t.getAvailableKeys f = (.ok ks, t1, ev1))
    (hmem : n ∉ ks) :
    t.loadDataset f n =
      (.error (.attributeError
          ("Dataset '" ++ n ++ "' not available for track "
            ++ t.track_id ++ ". ")), t1, ev1) := by
  unfold Track.loadDataset
  rw [hc, hks]
  simp [hmem]

theorem getattr_nonreserved_missing {t t1 : Track} {f : H5File} {n : String}
    {ks : List String} {ev1 : List IOEvent}
    (hu : pyStartsWith n '_' = false)
    (hc : lookupCache t.data_cache n = none)
    (hks : t.getAvailableKeys f = (.ok ks, t1, ev1))
    (hmem : n ∉ ks) :
    t.getattr f n =
      (.error (.attributeError
          ("'Track' object has no attribute '" ++ n ++ "'")), t1, ev1) := by
  unfold Track.getattr
  rw [loadDataset_missing_key hc hks hmem]
  simp [hu]

theorem getattr_reserved_eq (t : Track) (f : H5File) {name : String}
    (h : pyStartsWith name '_' = true) :
    t.getattr f name =
      (.error (.attributeError
          ("'Track' object has no attribute '" ++ name ++ "'")), t, []) := by
  unfold Track.getattr
  simp [h]

theorem append_mid_inj {pre r n suf : String}
    (h : pre ++ r ++ suf = pre ++ n ++ suf) : r = n := by
  have hd := congrArg String.data h
  simp only [String.data_append] at hd
  rw [List.append_assoc, List.append_assoc] at hd
  exact String.ext (List.append_cancel_right (List.append_cancel_left hd))

theorem reserved_missing_msg_ne {r n : String}
    (hr : pyStartsWith r '_' = true) (hn : pyStartsWith n '_' = false) :
    ("'Track' object has no attribute '" ++ r ++ "'" : String) ≠
      ("'Track' object has no attribute '" ++ n ++ "'" : String) := by
  intro h
  have hrn := append_mid_inj h
  rw [hrn, hn] at hr
  cases hr

/-- C2: loading an available dataset on a freshly constructed lazy track
performs only a key-listing open and a metadata open (never a content
read), returns the uncomputed deferred array carrying the dataset's
declared shape and dtype, caches exactly that object, and computing the
deferred array afterwards yields contents identical to what an eager-mode
load of the same dataset returns. -/
theorem lazy_load_meta_only_refines_eager (fp gn tid : String) (sp : Int)
    (f : H5File) (k : String) (g : H5Group) (ds : Dataset)
    (hg : lookupGroup f gn = some g)
    (hds : lookupDS g k = some ds) :
    (Track.init fp gn tid sp true).loadDataset f k =
      (.ok (.lazyArr ds.shape ds.dtype fp gn k),
       { file_path := fp, track_id := tid, species := sp, lazy := true,
         group_name := gn,
         data_cache := [(k, .lazyArr ds.shape ds.dtype fp gn k)],
         available_keys := some (groupKeys g) },
       [.openListKeys gn, .openReadMeta gn k]) ∧
    (∀ g' k', IOEvent.openReadData g' k' ∉
        [IOEvent.openListKeys gn, IOEvent.openReadMeta gn k]) ∧
    lookupCache [(k, ArrayVal.lazyArr ds.shape ds.dtype fp gn k)] k
      = some (.lazyArr ds.shape ds.dtype fp gn k) ∧
    computeArray (.lazyArr ds.shape ds.dtype fp gn k) f = .ok ds.data ∧
    ((Track.init fp gn tid sp false).loadDataset f k).1 = .ok (.eager ds.data) := by
  have hmem : k ∈ groupKeys g := mem_groupKeys_of_lookupDS hds
  refine ⟨?_, by intro g' k'; simp, lookupCache_cons_self ..,
    by simp [computeArray, hg, hds], ?_⟩
  · unfold Track.loadDataset Track.getAvailableKeys Track.init
    simp [lookupCache, hg, hds, hmem]
  · unfold Track.loadDataset Track.getAvailableKeys Track.init
    simp [lookupCache, hg, hds, hmem]

theorem lazy_load_meta_only_refines_eager_witness :
    exLazy.loadDataset exFile "x1" =
      (.ok (.lazyArr [2] "float64" "Tracks-p1.h5" "0-1" "x1"),
       { exLazy with
           data_cache :=
             [("x1", .lazyArr [2] "float64" "Tracks-p1.h5" "0-1" "x1")],
           available_keys := some ["x1", "ene"] },
       [.openListKeys "0-1", .openReadMeta "0-1" "x1"]) ∧
    computeArray (.lazyArr [2] "float64" "Tracks-p1.h5" "0-1" "x1") exFile
      = .ok [10, 20] ∧
    (exEager.loadDataset exFile "x1").1 = .ok (.eager [10, 20]) := by
  have h := lazy_load_meta_only_refines_eager "Tracks-p1.h5" "0-1" "0-1" 1
    exFile "x1"
    [("x1", ⟨[2], "float64", [10, 20]⟩), ("ene", ⟨[2], "float64", [3, 4]⟩)]
    ⟨[2], "float64", [10, 20]⟩ (by decide) (by decide)
  exact ⟨h.1, h.2.2.2.1, h.2.2.2.2⟩

/-- C4 counterexample: on a track whose ID is `7-9`, attribute access for
the missing dataset name `foo` raises an `AttributeError` whose message is
the generic one naming the class and the attribute; the track's ID `7-9`
does not occur anywhere in that message, contradicting the claim that the
attribute-access failure message identifies the track's ID. -/
theorem getattr_message_lacks_track_id :
    (exTrack79.getattr exFile79 "foo").1 =
      .error (.attributeError "'Track' object has no attribute 'foo'") ∧
    occursIn "7-9".data "'Track' object has no attribute 'foo'".data = false := by
  decide

/-- C4 (amended): for an unknown dataset name, `load_dataset` raises an
`AttributeError` whose message identifies the track's ID and the missing
name, while attribute access raises an `AttributeError` whose message
identifies the class name and the missing name (but not the track's ID). -/
theorem missing_name_error_messages (t : Track) (f : H5File) (n : String)
    (ks : List String) (t1 : Track) (ev1 : List IOEvent)
    (hc : lookupCache t.data_cache n = none)
    (hks : t.getAvailableKeys f = (.ok ks, t1, ev1))
    (hmem : n ∉ ks) :
    t.loadDataset f n =
      (.error (.attributeError
          ("Dataset '" ++ n ++ "' not available for track "
            ++ t.track_id ++ ". ")), t1, ev1) ∧
    (pyStartsWith n '_' = false →
      t.getattr f n =
        (.error (.attributeError
            ("'Track' object has no attribute '" ++ n ++ "'")), t1, ev1)) :=
  ⟨loadDataset_missing_key hc hks hmem,
   fun hu => getattr_nonreserved_missing hu hc hks hmem⟩

theorem missing_name_error_messages_witness :
    exTrack79.loadDataset exFile79 "foo" =
      (.error (.attributeError "Dataset 'foo' not available for track 7-9. "),
        { exTrack79 with available_keys := some ["x1"] },
        [.openListKeys "7-9"]) ∧
    exTrack79.getattr exFile79 "foo" =
      (.error (.attributeError "'Track' object has no attribute 'foo'"),
        { exTrack79 with available_keys := some ["x1"] },
        [.openListKeys "7-9"]) := by
  have h := missing_name_error_messages exTrack79 exFile79 "foo" ["x1"]
    { exTrack79 with available_keys := some ["x1"] }
    [.openListKeys "7-9"] (by decide) (by decide) (by decide)
  exact ⟨h.1, h.2 (by decide)⟩

/-- C8: attribute access for an undefined non-reserved name raises the same
exception class (`AttributeError`) as a genuinely missing dataset does in
`load_dataset`; the message raised for a reserved (underscore-prefixed)
name always differs from the message raised for any non-reserved name not
found in the file. -/
theorem getattr_reserved_vs_missing (t : Track) (f : H5File) (r n : String)
    (ks : List String) (t1 : Track) (ev1 : List IOEvent)
    (hr : pyStartsWith r '_' = true)
    (hn : pyStartsWith n '_' = false)
    (hc : lookupCache t.data_cache n = none)
    (hks : t.getAvailableKeys f = (.ok ks, t1, ev1))
    (hmem : n ∉ ks) :
    t.getattr f r =
      (.error (.attributeError
          ("'Track' object has no attribute '" ++ r ++ "'")), t, []) ∧
    t.getattr f n =
      (.error (.attributeError
          ("'Track' object has no attribute '" ++ n ++ "'")), t1, ev1) ∧
    ("'Track' object has no attribute '" ++ r ++ "'" : String) ≠
      ("'Track' object has no attribute '" ++ n ++ "'") ∧
    t.loadDataset f n =
      (.error (.attributeError
          ("Dataset '" ++ n ++ "' not available for track "
            ++ t.track_id ++ ". ")), t1, ev1) :=
  ⟨getattr_reserved_eq t f hr,
   getattr_nonreserved_missing hn hc hks hmem,
   reserved_missing_msg_ne hr hn,
   loadDataset_missing_key hc hks hmem⟩

theorem getattr_reserved_vs_missing_witness :
    exTrack79.getattr exFile79 "_grp" =
      (.error (.attributeError "'Track' object has no attribute '_grp'"),
        exTrack79, []) ∧
    exTrack79.getattr exFile79 "foo" =
      (.error (.attributeError "'Track' object has no attribute 'foo'"),
        { exTrack79 with available_keys := some ["x1"] },
        [.openListKeys "7-9"]) ∧
    ("'Track' object has no attribute '_grp'" : String) ≠
      "'Track' object has no attribute 'foo'" ∧
    exTrack79.loadDataset exFile79 "foo" =
      (.error (.attributeError "Dataset 'foo' not available for track 7-9. "),
        { exTrack79 with available_keys := some ["x1"] },
        [.openListKeys "7-9"]) := by
  have h := getattr_reserved_vs_missing exTrack79 exFile79 "_grp" "foo" ["x1"]
    { exTrack79 with available_keys := some ["x1"] }
    [.openListKeys "7-9"] (by decide) (by decide) (by decide) (by decide)
    (by decide)
  exact ⟨h.1, h.2.1, h.2.2.1, h.2.2.2⟩

theorem lookupTrack_cons_self (tid : String) (tr : Track)
    (ts : List (String × Track)) :
    lookupTrack ((tid, tr) :: ts) tid = some tr := by
  simp [lookupTrack, List.find?_cons]

theorem getItem_ok_cached {c c' : TrackCollection} {f : H5File} {tid : String}
    {tr : Track} (h : c.getItem f tid = (.ok tr, c')) :
    lookupTrack c'.tracks tid = some tr := by
  unfold TrackCollection.getItem at h
  split at h
  · next tr0 hl => cases h; exact hl
  · split at h
    · cases h
    · split at h
      · cases h; exact lookupTrack_cons_self ..
      · cases h

/-- C6: once `collection[tid]` has returned a `Track`, looking the same ID
up again returns the identical cached `Track` object and leaves the
collection state unchanged — each track ID maps to at most one `Track`
instance per collection. -/
theorem getItem_identity (c : TrackCollection) (f : H5File) (tid : String)
    (tr : Track) (c' : TrackCollection)
    (h : c.getItem f tid = (.ok tr, c')) :
    c'.getItem f tid = (.ok tr, c') := by
  have hl := getItem_ok_cached h
  unfold TrackCollection.getItem
  rw [hl]

theorem getItem_identity_witness :
    exColl1.getItem exFile "0-1" =
      (.ok (Track.init "Tracks-p1.h5" "0-1" "0-1" 1 false), exColl1) :=
  getItem_identity exColl exFile "0-1"
    (Track.init "Tracks-p1.h5" "0-1" "0-1" 1 false) exColl1 (by decide)

/-- C7: indexing a collection by a track ID absent from `track_ids` raises
`KeyError` with a message naming both the requested ID and the species; no
default value is returned. -/
theorem getItem_unknown_raises (c : TrackCollection) (f : H5File) (tid : String)
    (ids : List String) (c1 : TrackCollection)
    (hnc : lookupTrack c.tracks tid = none)
    (hids : c.trackIds f = (.ok ids, c1))
    (hmem : tid ∉ ids) :
    c.getItem f tid =
      (.error (.keyError ("Track ID '" ++ tid ++ "' not found for species "
          ++ toString c.species ++ ".")), c1) := by
  unfold TrackCollection.getItem
  rw [hnc, hids]
  simp [hmem]

theorem getItem_unknown_raises_witness :
    exColl.getItem exFile "9-9" =
      (.error (.keyError "Track ID '9-9' not found for species 1."),
        { exColl with track_ids_cache := some ["0-1"] }) := by
  have h := getItem_unknown_raises exColl exFile "9-9" ["0-1"]
    { exColl with track_ids_cache := some ["0-1"] }
    (by decide) (by decide) (by decide)
  exact h

theorem tupLe_total (a : List Int) : ∀ b, tupLe a b = true ∨ tupLe b a = true := by
  induction a with
  | nil => intro b; left; rfl
  | cons x xs ih =>
    intro b
    cases b with
    | nil => right; rfl
    | cons y ys =>
      by_cases h1 : x < y
      · left; simp [tupLe, h1]
      · by_cases h2 : y < x
        · right; simp [tupLe, h2]
        · rcases ih ys with h | h
          · left; simp [tupLe, h1, h2, h]
          · right; simp [tupLe, h1, h2, h]

theorem tupLe_trans (a : List Int) :
    ∀ b c, tupLe a b = true → tupLe b c = true → tupLe a c = true := by
  induction a with
  | nil => intros; rfl
  | cons x xs ih =>
    intro b c hab hbc
    cases b with
    | nil => simp [tupLe] at hab
    | cons y ys =>
      cases c with
      | nil => simp [tupLe] at hbc
      | cons z zs =>
        simp only [tupLe] at hab hbc ⊢
        split_ifs at hab hbc ⊢ <;>
          first
            | rfl
            | (exact ih ys zs hab hbc)
            | omega

theorem mem_insertPair {p q : List Int × String} {l : List (List Int × String)} :
    q ∈ insertPair p l ↔ q = p ∨ q ∈ l := by
  induction l with
  | nil => simp [insertPair]
  | cons a as ih =>
    simp only [insertPair]
    split
    · simp [List.mem_cons]
    · simp only [List.mem_cons, ih]
      tauto

theorem perm_insertPair (p : List Int × String) (l : List (List Int × String)) :
    (insertPair p l).Perm (p :: l) := by
  induction l with
  | nil => exact List.Perm.refl _
  | cons a as ih =>
    simp only [insertPair]
    split
    · exact List.Perm.refl _
    · exact (ih.cons a).trans (List.Perm.swap p a as)

theorem pairwise_insertPair {p : List Int × String} {l : List (List Int × String)}
    (h : l.Pairwise (fun a b => tupLe a.1 b.1 = true)) :
    (insertPair p l).Pairwise (fun a b => tupLe a.1 b.1 = true) := by
  induction l with
  | nil => simp [insertPair]
  | cons a as ih =>
    rw [List.pairwise_cons] at h
    obtain ⟨ha, has⟩ := h
    simp only [insertPair]
    split
    · next hle =>
      refine List.Pairwise.cons ?_ (List.Pairwise.cons ha has)
      intro x hx
      rcases List.mem_cons.mp hx with rfl | hx
      · exact hle
      · exact tupLe_trans p.1 a.1 x.1 hle (ha x hx)
    · next hle =>
      have hap : tupLe a.1 p.1 = true := by
        rcases tupLe_total p.1 a.1 with h | h
        · exact absurd h hle
        · exact h
      refine List.Pairwise.cons ?_ (ih has)
      intro x hx
      rcases mem_insertPair.mp hx with rfl | hx
      · exact hap
      · exact ha x hx

theorem pairwise_sortPairs (l : List (List Int × String)) :
    (sortPairs l).Pairwise (fun a b => tupLe a.1 b.1 = true) := by
  induction l with
  | nil => simp [sortPairs]
  | cons p ps ih => exact pairwise_insertPair ih

theorem perm_sortPairs (l : List (List Int × String)) :
    (sortPairs l).Perm l := by
  induction l with
  | nil => exact List.Perm.refl _
  | cons p ps ih =>
    exact (perm_insertPair p (sortPairs ps)).trans (ih.cons p)

theorem decorate_ok : ∀ {names : List String}
    {ps : List (List Int × String)}, decorate names = some ps →
    ps.map Prod.snd = names ∧ ∀ p ∈ ps, trackKey p.2 = some p.1 := by
  intro names
  induction names with
  | nil =>
    intro ps h
    cases h
    simp
  | cons s ss ih =>
    intro ps h
    unfold decorate at h
    rcases hk : trackKey s with _ | k
    · rw [hk] at h; cases h
    · rw [hk] at h
      rcases hd : decorate ss with _ | qs
      · rw [hd] at h; cases h
      · rw [hd] at h
        cases h
        obtain ⟨h1, h2⟩ := ih hd
        refine ⟨by simp [h1], ?_⟩
        intro p hp
        rcases List.mem_cons.mp hp with rfl | hp
        · exact hk
        · exact h2 p hp

theorem decorate_eq_none_iff : ∀ {names : List String},
    decorate names = none ↔ ∃ s ∈ names, trackKey s = none := by
  intro names
  induction names with
  | nil => simp [decorate]
  | cons s ss ih =>
    unfold decorate
    rcases hk : trackKey s with _ | k
    · simp [hk]
    · simp [hk, Option.map_eq_none', ih]

/-- C3: for a fresh collection over a file whose group names all parse into
exactly two integer components, `track_ids` succeeds, is a permutation of
the file's group names, and is sorted ascending by the numeric
`(rank, tag)` tuples (not by string comparison); in particular the groups
`1-2`, `0-10`, `0-1` come out as `["0-1", "0-10", "1-2"]` and `2-5`
precedes `10-1`. -/
theorem trackIds_numeric_sort :
    (∀ (c : TrackCollection) (f : H5File),
      c.track_ids_cache = none →
      (∀ s ∈ fileKeys f, (trackKey s).map List.length = some 2) →
      ∃ ids, (c.trackIds f).1 = .ok ids ∧
        ids.Perm (fileKeys f) ∧
        ids.Pairwise (fun x y => ∀ kx ky, trackKey x = some kx →
          trackKey y = some ky → tupLe kx ky = true)) ∧
    ((TrackCollection.init "Tracks-p1.h5" 1 false).trackIds exSortFile).1 =
      .ok ["0-1", "0-10", "1-2"] ∧
    ((TrackCollection.init "Tracks-p1.h5" 1 false).trackIds exSortFile2).1 =
      .ok ["2-5", "10-1"] := by
  refine ⟨?_, by decide, by decide⟩
  intro c f hcache hkeys
  have hno : ¬ decorate (fileKeys f) = none := by
    rw [decorate_eq_none_iff]
    rintro ⟨s, hs, hnone⟩
    have h2 := hkeys s hs
    rw [hnone] at h2
    cases h2
  rcases hps : decorate (fileKeys f) with _ | ps
  · exact absurd hps hno
  obtain ⟨hsnd, hkeysOf⟩ := decorate_ok hps
  refine ⟨(sortPairs ps).map Prod.snd, ?_, ?_, ?_⟩
  · simp [TrackCollection.trackIds, hcache, sortTrackIds, hps]
  · exact (hsnd ▸ (perm_sortPairs ps).map Prod.snd :
      ((sortPairs ps).map Prod.snd).Perm (fileKeys f))
  · have hp := pairwise_sortPairs ps
    have hmem : ∀ p ∈ sortPairs ps, trackKey p.2 = some p.1 :=
      fun p hp' => hkeysOf p ((perm_sortPairs ps).mem_iff.mp hp')
    rw [List.pairwise_map]
    refine List.Pairwise.imp_of_mem ?_ hp
    intro p q hpm hqm hle kx ky hkx hky
    rw [hmem p hpm] at hkx
    rw [hmem q hqm] at hky
    cases hkx
    cases hky
    exact hle

theorem trackIds_numeric_sort_witness :
    (["0-1", "0-10", "1-2"] : List String).Perm (fileKeys exSortFile) ∧
    (["0-1", "0-10", "1-2"] : List String).Pairwise
      (fun x y => ∀ kx ky, trackKey x = some kx →
        trackKey y = some ky → tupLe kx ky = true) := by
  obtain ⟨ids, hok, hperm, hpw⟩ := trackIds_numeric_sort.1
    (TrackCollection.init "Tracks-p1.h5" 1 false) exSortFile rfl (by decide)
  have h2 : ((TrackCollection.init "Tracks-p1.h5" 1 false).trackIds
      exSortFile).1 = .ok ["0-1", "0-10", "1-2"] := by decide
  rw [h2] at hok
  cases hok
  exact ⟨hperm, hpw⟩

/-- C5 counterexample: the three-component group name `1-2-3` does not
parse into exactly two integer components, yet `track_ids` does not fail on
it — the name is accepted and returned, contradicting the claim that any
group name without exactly two integer components is a fatal parse
failure. -/
theorem trackIds_three_component_id_accepted :
    ((TrackCollection.init "Tracks-p1.h5" 0 false).trackIds exThreeFile).1
      = .ok ["1-2-3"] ∧
    trackKey "1-2-3" = some [1, 2, 3] ∧
    ∀ a b : Int, trackKey "1-2-3" ≠ some [a, b] := by
  refine ⟨by decide, by decide, ?_⟩
  intro a b hab
  rw [show trackKey "1-2-3" = some [1, 2, 3] from by decide] at hab
  simp at hab

/-- C5 (amended): on a fresh collection over a file whose group names are
ASCII, computing `track_ids` fails — with the uncaught `ValueError` from
`int()` — exactly when some top-level group name has a component between
separators that is not a valid integer literal for `int()` (surrounding
whitespace, one optional sign, and grouping underscores between digits
are accepted); group names splitting into some other number of integer
components are not rejected but sorted by variable-length tuple
comparison.  The ASCII restriction scopes the statement to where `pyInt`
reproduces `int()` exactly (non-ASCII Unicode digits are not modelled). -/
theorem trackIds_error_iff_bad_component (c : TrackCollection) (f : H5File)
    (h : c.track_ids_cache = none)
    (_hascii : ∀ s ∈ fileKeys f, asciiOnly s = true) :
    ((c.trackIds f).1 =
        .error (.valueError "invalid literal for int() with base 10")
      ↔ ∃ s ∈ fileKeys f, trackKey s = none) := by
  unfold TrackCollection.trackIds
  rw [h]
  rcases hs : sortTrackIds (fileKeys f) with _ | ids
  · have hd : decorate (fileKeys f) = none := by
      unfold sortTrackIds at hs
      exact Option.map_eq_none'.mp hs
    simp [decorate_eq_none_iff.mp hd]
  · have hd : ¬ decorate (fileKeys f) = none := by
      unfold sortTrackIds at hs
      intro hdd
      rw [hdd] at hs
      cases hs
    rw [decorate_eq_none_iff] at hd
    simp only []
    constructor
    · intro habs; cases habs
    · intro hex; exact absurd hex hd

theorem trackIds_error_iff_bad_component_witness :
    ((TrackCollection.init "Tracks-p1.h5" 0 false).trackIds exBadFile).1
      = .error (.valueError "invalid literal for int() with base 10") :=
  (trackIds_error_iff_bad_component
      (TrackCollection.init "Tracks-p1.h5" 0 false) exBadFile rfl
      (by decide)).mpr
    ⟨"a-1", by decide, by decide⟩
